import Mathlib

/-!
Shallow embedding of `DropboxCloud` (src/unnamed/part_000, the current revision,
and src/DropboxCloud.esm.js, the earlier revision) — a browser-side OAuth2/PKCE
authentication manager and chunked-upload engine for the Dropbox API.

External collaborators (the Dropbox SDK endpoints, `JSON.parse`, `crypto.randomUUID`,
`Date.now`, the popup/window platform, session storage) are modelled as explicit
parameters in an `Env` record; the class's private state is the `DC` record.
Machine numbers are `Nat`/`Int` (JS numbers are exact integers in every arithmetic
operation these claims touch).
-/

/-! Concrete fixtures used by the witness theorems. -/

/-- Model of a JavaScript error value as it flows through this module:
either a `DropboxResponseError` (with its `error.error` code and
`error.error_description`), an `Error` without a cause, an `Error` constructed
with `new Error(message, cause)`, or some other thrown value. -/
inductive JsError where
  | dropboxResponseError (errorCode : String) (errorDescription : String)
  | error (message : String)
  | errorWithCause (message : String) (cause : JsError)
  | other (tag : String)
deriving DecidableEq, Repr

/-- Model of a JSON value, the possible results of `JSON.parse`. -/
inductive JsValue where
  | null
  | bool (b : Bool)
  | num (n : Int)
  | str (s : String)
  | arr (elems : List JsValue)
  | obj (fields : List (String × JsValue))
deriving Repr

/-- JavaScript truthiness of a string-or-nullish value: `null`/`undefined` and
the empty string are falsy, every other string is truthy. -/
def jsTruthy : Option String → Bool
  | none => false
  | some s => !(s == "")

/-- Template-literal rendering of a string-or-null value, as in
`` `OAuthState-${this.#appId}` `` where a null `appId` prints as "null". -/
def jsTemplateOpt : Option String → String
  | some a => a
  | none => "null"

/-- Result of an awaited JS promise: fulfilled, rejected with an error, or
never settled (pending forever). -/
inductive AsyncResult (α : Type) where
  | ok (a : α)
  | thrown (e : JsError)
  | pending
deriving DecidableEq, Repr

/-- Model of a URL as the handlers consume it: `params` is the decoded
`searchParams` (key/value pairs, first occurrence wins on lookup) and
`search` is the raw query string (as in `redirectURL.search`). -/
structure URLModel where
  params : List (String × String)
  search : String
deriving DecidableEq, Repr

/-- Translation of `searchParams.get(k)`: first matching value or null. -/
def URLModel.get (u : URLModel) (k : String) : Option String :=
  (u.params.find? (fun p => p.1 == k)).map (fun p => p.2)

/-- Translation of `searchParams.has(k)`. -/
def URLModel.has (u : URLModel) (k : String) : Bool :=
  u.params.any (fun p => p.1 == k)

/-- Translation of `Object.getOwnPropertyDescriptor(v, k)?.value` on a parsed
JSON value: a field lookup on objects, `undefined` (`none`) otherwise. -/
def getOwnProp (v : JsValue) (k : String) : Option JsValue :=
  match v with
  | .obj fields => (fields.find? (fun p => p.1 == k)).map (fun p => p.2)
  | _ => none

/-- JS strict equality `a === b` where `a` is a string or null (the issued or
recovered state token) and `b` is a JSON field value or `undefined`:
true only for equal strings, or for `null === null`. -/
def jsStrictEqStateVal : Option String → Option JsValue → Bool
  | some s, some (.str t) => s == t
  | none, some .null => true
  | _, _ => false

/-- Message built by `catchCallback` (src/unnamed/part_000 lines 23-34): the
fixed context message, with the provider error code/description appended when
the cause is a `DropboxResponseError`. -/
def catchMessage (message : String) (reason : JsError) : String :=
  match reason with
  | .dropboxResponseError code desc =>
      message ++ "\nDropboxResponseError(" ++ code ++ "): " ++ desc ++ "."
  | _ => message

/-- Translation of `catchCallback` (src/unnamed/part_000 lines 23-34): wraps a
rejection reason in a `new Error(message, cause)`. -/
def catchCallback (message : String) (reason : JsError) : JsError :=
  .errorWithCause (catchMessage message reason) reason

/-- The test `reason instanceof DropboxResponseError && reason.error.error ===
invalid_grant` from src/unnamed/part_000 line 56. -/
def isInvalidGrant : JsError → Bool
  | .dropboxResponseError code _ => code == "invalid_grant"
  | _ => false

/-- The private state of a `DropboxCloud` instance: the SDK auth object
(`this.#dbx.auth`), the configuration flags, the injected token-storage
capability (presence flag, currently persisted value, and the trace of
`saveToken` calls), and the browser session storage. -/
structure AuthCtx where
  accessToken : Option String
  refreshToken : Option String
  accessTokenExpiresAt : Option Int
  codeVerifier : Option String
deriving DecidableEq, Repr

structure DC where
  auth : AuthCtx
  appId : Option String
  useOfflineToken : Bool
  usePopupRedirect : Bool
  hasStorage : Bool
  persisted : Option String
  saveCalls : List (Option String)
  sessionStore : List (String × String)
deriving DecidableEq, Repr

/-- Translation of `this.#tokenStorage?.saveToken(v)`: a no-op when no storage
capability was injected. -/
def saveTokenOp (s : DC) (v : Option String) : DC :=
  if s.hasStorage then
    { s with persisted := v, saveCalls := s.saveCalls ++ [v] }
  else s

/-- Network/side-effecting calls the orchestrator can issue, for tracing. -/
inductive NetCall where
  | refreshCall
  | checkUserCall
  | getAuthUrlCall
  | popupOpenCall
  | navReplaceCall (url : String)
  | exchangeCall (code : Option String)
deriving DecidableEq, Repr

/-- The token info returned by the code-exchange endpoint. -/
structure TokenInfo where
  access_token : String
  refresh_token : String
  expires_in : Int
deriving DecidableEq, Repr

/-- Outcome of one settled/unsettled step: resulting instance state, the trace
of external calls issued, and the awaited promise result. -/
structure StepResult (α : Type) where
  state : DC
  calls : List NetCall
  result : AsyncResult α
deriving Repr

/-- Behaviour of the external world during one call, as fixed responses of the
remote endpoints and platform facilities. -/
structure Env where
  refreshEp : Except JsError Unit
  refreshRenew : Option (String × Int)
  checkUser : Except JsError String
  probeUuid : String
  stateUuid : String
  authUrl : Except JsError String
  pkceVerifier : String
  popupOk : Bool
  now : Int
  currentURL : URLModel
  jsonParse : Option String → Except JsError JsValue
  exchange : Option String → Except JsError TokenInfo

/-- Access-token update performed inside the SDK's
`checkAndRefreshAccessToken` when it decides to renew. -/
def applyRenew (env : Env) (s : DC) : DC :=
  match env.refreshRenew with
  | some (tok, exp) =>
      { s with auth := { s.auth with accessToken := some tok, accessTokenExpiresAt := some exp } }
  | none => s

/-- Translation of `#OAuthRefreshToken` (src/unnamed/part_000 lines 51-75).
If a refresh token is held (JS-truthy), calls the refresh endpoint; on success
resolves true; on an `invalid_grant` `DropboxResponseError` clears the refresh
token in memory and via the storage capability and resolves false; any other
rejection is rethrown and wrapped by `catchCallback` with the fixed message.
With no refresh token held, resolves true without a network call. -/
def OAuthRefreshToken (env : Env) (s : DC) : StepResult Bool :=
  if jsTruthy s.auth.refreshToken then
    match env.refreshEp with
    | .ok _ => ⟨applyRenew env s, [.refreshCall], .ok true⟩
    | .error reason =>
        if isInvalidGrant reason then
          let s1 : DC := { s with auth := { s.auth with refreshToken := none } }
          ⟨saveTokenOp s1 none, [.refreshCall], .ok false⟩
        else
          ⟨s, [.refreshCall], .thrown (catchCallback "Error refreshing token!" reason)⟩
  else
    ⟨s, [], .ok true⟩

/-- Translation of `#OAuthCheckToken` (src/unnamed/part_000 lines 77-89).
Awaits `#OAuthRefreshToken` (propagating its rejection); on true, issues the
`checkUser` probe with a random query, resolving to whether the echoed value
strictly equals the query, and resolving false on probe rejection; on false,
resolves false without issuing the probe. -/
def OAuthCheckToken (env : Env) (s : DC) : StepResult Bool :=
  match OAuthRefreshToken env s with
  | ⟨s1, t1, .ok true⟩ =>
      match env.checkUser with
      | .ok r => ⟨s1, t1 ++ [.checkUserCall], .ok (r == env.probeUuid)⟩
      | .error _ => ⟨s1, t1 ++ [.checkUserCall], .ok false⟩
  | ⟨s1, t1, .ok false⟩ => ⟨s1, t1, .ok false⟩
  | ⟨s1, t1, .thrown e⟩ => ⟨s1, t1, .thrown e⟩
  | ⟨s1, t1, .pending⟩ => ⟨s1, t1, .pending⟩

/-- Outcome delivered through the redirect promise: resolution with the `code`
query value, or rejection with an error. -/
inductive RedirectOutcome where
  | resolved (code : Option String)
  | rejectedO (err : JsError)
deriving DecidableEq, Repr

/-- Translation of `#OAuthRedirectHandler` (src/unnamed/part_000 lines 97-107),
parameterised over the platform's `JSON.parse` behaviour (`parse`). Reads the
`state` query parameter, parses it (a parse exception propagates out of the
handler synchronously, settling nothing), reads the parsed object's `state`
own-property, and resolves with the `code` parameter on strict equality with
the issued/recovered token, otherwise rejects with the mismatch error quoting
the raw query string. -/
def OAuthRedirectHandler (parse : Option String → Except JsError JsValue)
    (oauthState : Option String) (url : URLModel) : Except JsError RedirectOutcome :=
  match parse (url.get "state") with
  | .error e => .error e
  | .ok stateObj =>
      if jsStrictEqStateVal oauthState (getOwnProp stateObj "state") then
        .ok (.resolved (url.get "code"))
      else
        .ok (.rejectedO (.error ("Mismatched state on redirect, something has gone wrong. The search string was \"" ++ url.search ++ "\".")))

/-- State of one popup authorization attempt: the settlement of the promise
from `Promise.withResolvers` (settled at most once, first settle wins), the
number of times the `finally`-registered cleanup has run, and whether the
message listener / popup window are still live. -/
structure AttemptState where
  settled : Option RedirectOutcome
  cleanupRuns : Nat
  listenerActive : Bool
  popupOpen : Bool
deriving DecidableEq, Repr

def initAttempt : AttemptState := ⟨none, 0, true, true⟩

/-- Events that can reach one popup attempt: a `message` event (with whether
`event.source` is the popup and whether `event.data` has the `OAuthRedirect`
marker) or the `setTimeout` timer firing. -/
inductive PopupEvent where
  | message (sourceIsPopup : Bool) (hasMarker : Bool) (url : URLModel)
  | timeoutFire
deriving Repr

/-- Settling a `Promise.withResolvers` promise: the first resolve/reject wins
and triggers the `finally` cleanup (`#popupRedirectCleanup`: close the popup,
remove the message listener) exactly once; later settle calls are no-ops. -/
def trySettle (s : AttemptState) (o : RedirectOutcome) : AttemptState :=
  match s.settled with
  | some _ => s
  | none => ⟨some o, s.cleanupRuns + 1, false, false⟩

/-- One event processed by the handlers registered in `#handlePopupRedirect`
(src/unnamed/part_000 lines 146-157): `#popupRedirectHandler` ignores messages
without the marker, from a non-popup source, or after listener removal, and
otherwise runs `#OAuthRedirectHandler` (whose exception settles nothing); the
timer handler rejects with the timeout error. The timer is never cancelled, so
`timeoutFire` can arrive even after settlement. -/
def popupStep (parse : Option String → Except JsError JsValue) (oauthState : String)
    (timeout : Int) (s : AttemptState) (e : PopupEvent) : AttemptState :=
  match e with
  | .timeoutFire =>
      trySettle s (.rejectedO (.error ("OAuth timed out after " ++ toString timeout ++ " seconds.")))
  | .message src marker url =>
      if s.listenerActive && marker && src then
        match OAuthRedirectHandler parse (some oauthState) url with
        | .error _ => s
        | .ok o => trySettle s o
      else s

/-- A whole popup attempt: the event sequence delivered by the event loop,
processed in order from the fresh attempt state. -/
def runPopup (parse : Option String → Except JsError JsValue) (oauthState : String)
    (timeout : Int) (events : List PopupEvent) : AttemptState :=
  events.foldl (popupStep parse oauthState timeout) initAttempt

/-- Value produced by `#OAuthGetCode`: an authorization code (the `code` query
value) or the null returned when same-page navigation was initiated. -/
inductive GetCodeOutcome where
  | code (c : Option String)
  | navigated
deriving DecidableEq, Repr

/-- Session-storage `getItem`. -/
def sget (l : List (String × String)) (k : String) : Option String :=
  (l.find? (fun p => p.1 == k)).map (fun p => p.2)

/-- Session-storage `setItem` (overwrite or insert). -/
def sset (l : List (String × String)) (k v : String) : List (String × String) :=
  if l.any (fun p => p.1 == k) then
    l.map (fun p => if p.1 == k then (k, v) else p)
  else
    l ++ [(k, v)]

/-- Translation of `#OAuthGetCode` together with its redirect channels
(src/unnamed/part_000 lines 97-237). If the current page URL carries both
`code` and `state` query parameters, runs `#navigationRedirectHandler` (lines
183-190): recover the state token and PKCE verifier from session storage under
the appId-qualified keys, restore the verifier into the auth context, and run
the shared redirect handler synchronously — no external call. Otherwise build
the authorization URL (external builder, which also generates the PKCE
verifier) and delegate to the popup channel (`#OAuthPopupRedirect`, whose
promise is the popup attempt run over the environment's event sequence) or to
the navigation channel (`#OAuthNavigationRedirect`: persist state and verifier
to session storage, replace the page, return null). -/
def OAuthGetCode (env : Env) (timeout : Int) (popupRedirect : Bool)
    (popupEvents : List PopupEvent) (s : DC) : StepResult GetCodeOutcome :=
  let url := env.currentURL
  if url.has "code" && url.has "state" then
    let st := sget s.sessionStore ("OAuthState-" ++ jsTemplateOpt s.appId)
    let verifier := sget s.sessionStore ("CodeVerifier-" ++ jsTemplateOpt s.appId)
    let s1 : DC := { s with auth := { s.auth with codeVerifier := verifier } }
    match OAuthRedirectHandler env.jsonParse st url with
    | .error e => ⟨s1, [], .thrown e⟩
    | .ok (.resolved c) => ⟨s1, [], .ok (.code c)⟩
    | .ok (.rejectedO e) => ⟨s1, [], .thrown e⟩
  else
    match env.authUrl with
    | .error e => ⟨s, [.getAuthUrlCall], .thrown e⟩
    | .ok theUrl =>
        let s1 : DC := { s with auth := { s.auth with codeVerifier := some env.pkceVerifier } }
        if popupRedirect then
          if env.popupOk then
            match (runPopup env.jsonParse env.stateUuid timeout popupEvents).settled with
            | some (.resolved c) => ⟨s1, [.getAuthUrlCall, .popupOpenCall], .ok (.code c)⟩
            | some (.rejectedO e) => ⟨s1, [.getAuthUrlCall, .popupOpenCall], .thrown e⟩
            | none => ⟨s1, [.getAuthUrlCall, .popupOpenCall], .pending⟩
          else
            ⟨s1, [.getAuthUrlCall, .popupOpenCall], .thrown (.error "Failed to create popup for authentication!")⟩
        else
          let store1 := sset s1.sessionStore ("OAuthState-" ++ jsTemplateOpt s1.appId) env.stateUuid
          let store2 := sset store1 ("CodeVerifier-" ++ jsTemplateOpt s1.appId) env.pkceVerifier
          ⟨{ s1 with sessionStore := store2 }, [.getAuthUrlCall, .navReplaceCall theUrl], .ok .navigated⟩

/-- JS falsiness of the awaited `OAuthCode` in `OAuth` (`!OAuthCode`): the
navigation case returned null; a resolved code may itself be null or empty. -/
def jsFalsyCode : GetCodeOutcome → Bool
  | .navigated => true
  | .code none => true
  | .code (some c) => c == ""

/-- The code value passed on to the exchange endpoint. -/
def codeOf : GetCodeOutcome → Option String
  | .navigated => none
  | .code c => c

def OAUTH_TIMEOUT : Int := 120

/-- Translation of the public `OAuth` orchestrator (src/unnamed/part_000 lines
320-344). Await the liveness check and return immediately when it is true;
otherwise resolve the effective timeout/offline/popup parameters from the
arguments with instance defaults, acquire a code (wrapping channel failures
with the fixed message), skip silently when same-page navigation was started,
otherwise exchange the code (wrapping failures with the fixed message), store
the access token, and in offline mode also store the refresh token, set the
expiry to `Date.now() + expires_in`, and persist the refresh token. -/
def OAuth (env : Env) (popupEvents : List PopupEvent) (timeoutArg : Option Int)
    (offlineArg popupArg : Option Bool) (s : DC) : StepResult Unit :=
  match OAuthCheckToken env s with
  | ⟨s1, t1, .thrown e⟩ => ⟨s1, t1, .thrown e⟩
  | ⟨s1, t1, .pending⟩ => ⟨s1, t1, .pending⟩
  | ⟨s1, t1, .ok true⟩ => ⟨s1, t1, .ok ()⟩
  | ⟨s1, t1, .ok false⟩ =>
    let timeout := timeoutArg.getD OAUTH_TIMEOUT
    let offline := offlineArg.getD s1.useOfflineToken
    let popup := popupArg.getD s1.usePopupRedirect
    match OAuthGetCode env timeout popup popupEvents s1 with
    | ⟨s2, t2, .thrown e⟩ =>
        ⟨s2, t1 ++ t2, .thrown (catchCallback "Error fetching OAuth Code." e)⟩
    | ⟨s2, t2, .pending⟩ => ⟨s2, t1 ++ t2, .pending⟩
    | ⟨s2, t2, .ok outcome⟩ =>
        if jsFalsyCode outcome && !popup then
          ⟨s2, t1 ++ t2, .ok ()⟩
        else
          match env.exchange (codeOf outcome) with
          | .error e =>
              ⟨s2, t1 ++ t2 ++ [.exchangeCall (codeOf outcome)],
               .thrown (catchCallback "Error converting the OAuth Code to an OAuth Token." e)⟩
          | .ok info =>
              let s3 : DC := { s2 with auth := { s2.auth with accessToken := some info.access_token } }
              let s4 : DC :=
                if offline then
                  saveTokenOp
                    { s3 with auth := { s3.auth with
                        refreshToken := some info.refresh_token,
                        accessTokenExpiresAt := some (env.now + info.expires_in) } }
                    (some info.refresh_token)
                else s3
              ⟨s4, t1 ++ t2 ++ [.exchangeCall (codeOf outcome)], .ok ()⟩

/-- A file as the upload engine sees it: a name and a byte size. -/
structure FileModel where
  name : String
  size : Nat
deriving DecidableEq, Repr

/-- The suggested chunk size constant (src/unnamed/part_000 line 286). -/
def CHUNK_SIZE : Nat := 12 * 1024 * 1024

/-- The small-file size limit constant (src/unnamed/part_000 line 288). -/
def FILE_SIZE_LIMIT : Nat := 150 * 1024 * 1024

/-- `Math.ceil(a / b)` for natural `a` and positive natural `b` (the division
is exact in JS doubles throughout the realistic file-size range). -/
def jsCeilDiv (a b : Nat) : Nat := (a + b - 1) / b

/-- `file.slice(a, b)` as the byte range it captures: both ends clamp to the
file size. -/
def jsSlice (size a b : Nat) : Nat × Nat := (min a size, min b size)

/-- Calls issued to the upload endpoints, for tracing. -/
inductive UploadEvent where
  | sessionStart (sessionId : String)
  | append (sessionId : String) (offset : Nat) (chunkStart chunkStop : Nat)
  | finish (sessionId : String) (offset : Nat) (path : String)
  | singleUpload (path : String)
deriving DecidableEq, Repr

/-- Translation of `#uploadLargeFile` (src/unnamed/part_000 lines 264-279) as
the sequence of upload-endpoint calls it issues, with `sid` the session id
returned by `filesUploadSessionStart`. The chunk array is built by mapping
over the index range `0 .. ceil(size/CHUNK_SIZE) - 1`; the `for...in` loop
then walks those same indices in order (the JS loop variable is the index
string, which `*` coerces back to its numeric value), appending chunk `i` at
cursor offset `i * CHUNK_SIZE`, and finally issues `filesUploadSessionFinish`
at cursor offset `file.size` committing to `/` + the file name. -/
def uploadLargeFile (sid : String) (f : FileModel) : List UploadEvent :=
  let chunks := (List.range (jsCeilDiv f.size CHUNK_SIZE)).map
    (fun i => jsSlice f.size (i * CHUNK_SIZE) ((i + 1) * CHUNK_SIZE))
  UploadEvent.sessionStart sid ::
    ((List.range chunks.length).map
      (fun i => UploadEvent.append sid (i * CHUNK_SIZE) (chunks.getD i (0, 0)).1 (chunks.getD i (0, 0)).2))
    ++ [UploadEvent.finish sid f.size ("/" ++ f.name)]

/-- Translation of `#uploadSmallFile` (src/unnamed/part_000 lines 254-259):
normalize the target directory to end with a separator and issue one
`filesUpload` to the directory plus the file name. -/
def uploadSmallFile (dir : String) (f : FileModel) : UploadEvent :=
  .singleUpload ((if dir.endsWith "/" then dir else dir ++ "/") ++ f.name)

/-- Translation of the dispatch in `uploadFile` (src/unnamed/part_000 lines
377-383): sizes strictly below `FILE_SIZE_LIMIT` take the single-request path
(with the default directory `/`), all others the chunked session path. -/
def uploadFile (sid : String) (f : FileModel) : List UploadEvent :=
  if f.size < FILE_SIZE_LIMIT then [uploadSmallFile "/" f] else uploadLargeFile sid f

/-- The cursor offsets of the session-append calls in a trace, in order. -/
def appendOffsets : List UploadEvent → List Nat
  | [] => []
  | .append _ o _ _ :: rest => o :: appendOffsets rest
  | _ :: rest => appendOffsets rest

/-- The session id carried by an upload-endpoint call, when it has one. -/
def sessionOf : UploadEvent → Option String
  | .sessionStart s => some s
  | .append s _ _ _ => some s
  | .finish s _ _ => some s
  | .singleUpload _ => none

/-- The finish/commit calls in a trace, as (session id, offset, path). -/
def finishEvents : List UploadEvent → List (String × Nat × String)
  | [] => []
  | .finish s o p :: rest => (s, o, p) :: finishEvents rest
  | _ :: rest => finishEvents rest

def sampleAuth : AuthCtx := ⟨none, none, none, none⟩

def sampleDC : DC := ⟨sampleAuth, some "app", true, true, true, none, [], []⟩

def sampleEnv : Env :=
  ⟨.ok (), none, .ok "probe-echo", "probe-echo", "st-uuid", .ok "https-auth", "verifier",
   true, 1000, ⟨[], ""⟩, fun _ => .ok .null, fun _ => .ok ⟨"acc", "ref", 3600⟩⟩

def heldDC : DC := { sampleDC with auth := { sampleAuth with refreshToken := some "rt" }, persisted := some "rt" }

def invalidGrantErr : JsError := .dropboxResponseError "invalid_grant" "refresh token is expired"

def transportErr : JsError := .other "network failure"

def mismatchedStateObj : JsValue := .obj [("state", .str "other-token")]

def redirectUrlFix : URLModel := ⟨[("state", "raw-json"), ("code", "CODE-1")], "?state=raw-json&code=CODE-1"⟩

def parseFix : Option String → Except JsError JsValue := fun _ => .ok mismatchedStateObj

/-- Invariant of a popup attempt: before settlement the cleanup has not run
and the listener and popup are live; after settlement the cleanup has run
exactly once and the listener and popup have been torn down. -/
def SettleInv (s : AttemptState) : Prop :=
  (s.settled = none → s.cleanupRuns = 0 ∧ s.listenerActive = true ∧ s.popupOpen = true)
  ∧ (s.settled.isSome → s.cleanupRuns = 1 ∧ s.listenerActive = false ∧ s.popupOpen = false)

def navDC : DC :=
  { sampleDC with sessionStore := [("OAuthState-app", "st-tok"), ("CodeVerifier-app", "pkce-v")] }

def navEnv : Env :=
  { sampleEnv with
      currentURL := ⟨[("code", "ABC"), ("state", "rawjson")], "?code=ABC&state=rawjson"⟩,
      jsonParse := fun _ => .ok (.obj [("state", .str "st-tok")]) }

def bigFile : FileModel := ⟨"big.bin", 150 * 1024 * 1024 + 1⟩

def popupUrlK : URLModel := ⟨[("state", "raw"), ("code", "K")], "?state=raw&code=K"⟩

def oauthEnv : Env :=
  { sampleEnv with
      checkUser := .ok "nope",
      jsonParse := fun _ => .ok (.obj [("state", .str "st-uuid")]) }

/-! Theorems. Each claim-settling theorem carries its claim id in its doc comment. -/

/-- C1: when a refresh token is held and the refresh endpoint rejects with the
invalid-grant condition, `#OAuthRefreshToken` clears the refresh token in
memory, persists the absent value through the injected storage capability,
and resolves false without propagating any error. -/
theorem refresh_invalid_grant_recovers (env : Env) (s : DC) (reason : JsError)
    (htok : jsTruthy s.auth.refreshToken = true)
    (hep : env.refreshEp = .error reason)
    (hig : isInvalidGrant reason = true)
    (hsto : s.hasStorage = true) :
    (OAuthRefreshToken env s).result = .ok false
    ∧ (OAuthRefreshToken env s).state.auth.refreshToken = none
    ∧ (OAuthRefreshToken env s).state.persisted = none
    ∧ (OAuthRefreshToken env s).state.saveCalls = s.saveCalls ++ [none] := by
  simp [OAuthRefreshToken, htok, hep, hig, saveTokenOp, hsto]

theorem refresh_invalid_grant_recovers_witness :
    (OAuthRefreshToken { sampleEnv with refreshEp := .error invalidGrantErr } heldDC).result = .ok false
    ∧ (OAuthRefreshToken { sampleEnv with refreshEp := .error invalidGrantErr } heldDC).state.auth.refreshToken = none
    ∧ (OAuthRefreshToken { sampleEnv with refreshEp := .error invalidGrantErr } heldDC).state.persisted = none
    ∧ (OAuthRefreshToken { sampleEnv with refreshEp := .error invalidGrantErr } heldDC).state.saveCalls
        = heldDC.saveCalls ++ [none] :=
  refresh_invalid_grant_recovers _ _ invalidGrantErr rfl rfl rfl rfl

/-- C2: when a refresh token is held and the refresh endpoint rejects with any
condition other than invalid-grant, `#OAuthRefreshToken` propagates a fatal
error wrapping the original cause under the fixed context message, and leaves
the whole instance state — in particular the in-memory and persisted refresh
token — unchanged. -/
theorem refresh_other_error_propagates (env : Env) (s : DC) (reason : JsError)
    (htok : jsTruthy s.auth.refreshToken = true)
    (hep : env.refreshEp = .error reason)
    (hig : isInvalidGrant reason = false) :
    (OAuthRefreshToken env s).result
        = .thrown (.errorWithCause (catchMessage "Error refreshing token!" reason) reason)
    ∧ (OAuthRefreshToken env s).state = s
    ∧ (OAuthRefreshToken env s).state.auth.refreshToken = s.auth.refreshToken
    ∧ (OAuthRefreshToken env s).state.persisted = s.persisted
    ∧ (OAuthRefreshToken env s).state.saveCalls = s.saveCalls := by
  simp [OAuthRefreshToken, htok, hep, hig, catchCallback]

theorem refresh_other_error_propagates_witness :
    (OAuthRefreshToken { sampleEnv with refreshEp := .error transportErr } heldDC).result
        = .thrown (.errorWithCause (catchMessage "Error refreshing token!" transportErr) transportErr)
    ∧ (OAuthRefreshToken { sampleEnv with refreshEp := .error transportErr } heldDC).state = heldDC
    ∧ (OAuthRefreshToken { sampleEnv with refreshEp := .error transportErr } heldDC).state.auth.refreshToken
        = heldDC.auth.refreshToken
    ∧ (OAuthRefreshToken { sampleEnv with refreshEp := .error transportErr } heldDC).state.persisted
        = heldDC.persisted
    ∧ (OAuthRefreshToken { sampleEnv with refreshEp := .error transportErr } heldDC).state.saveCalls
        = heldDC.saveCalls :=
  refresh_other_error_propagates _ _ transportErr rfl rfl rfl

/-- Strict equality against a held string token holds exactly for the equal
string field value. -/
theorem jsStrictEqStateVal_some_iff (tok : String) (v : Option JsValue) :
    jsStrictEqStateVal (some tok) v = true ↔ v = some (.str tok) := by
  cases v with
  | none => simp [jsStrictEqStateVal]
  | some w =>
      cases w with
      | str t =>
          simp only [jsStrictEqStateVal, beq_iff_eq, Option.some.injEq, JsValue.str.injEq]
          exact eq_comm
      | null => simp [jsStrictEqStateVal]
      | bool b => simp [jsStrictEqStateVal]
      | num n => simp [jsStrictEqStateVal]
      | arr l => simp [jsStrictEqStateVal]
      | obj l => simp [jsStrictEqStateVal]

/-- C3: whenever the redirect's `state` query parameter decodes to a JSON
object, `#OAuthRedirectHandler` rejects with the mismatch error quoting the
raw query string whenever the object's `state` field is not strictly equal to
the issued token (in particular it never resolves then), and it resolves —
with the `code` query parameter — only when the field strictly equals the
issued token. -/
theorem redirect_handler_state_match (parse : Option String → Except JsError JsValue)
    (tok : String) (url : URLModel) (stateObj : JsValue)
    (hp : parse (url.get "state") = .ok stateObj) :
    (getOwnProp stateObj "state" ≠ some (.str tok) →
      OAuthRedirectHandler parse (some tok) url
        = .ok (.rejectedO (.error ("Mismatched state on redirect, something has gone wrong. The search string was \"" ++ url.search ++ "\"."))))
    ∧ (∀ c, OAuthRedirectHandler parse (some tok) url = .ok (.resolved c) →
        getOwnProp stateObj "state" = some (.str tok) ∧ c = url.get "code") := by
  constructor
  · intro hne
    have hfalse : jsStrictEqStateVal (some tok) (getOwnProp stateObj "state") = false := by
      rcases h : jsStrictEqStateVal (some tok) (getOwnProp stateObj "state") with _ | _
      · rfl
      · exact absurd ((jsStrictEqStateVal_some_iff tok _).mp h) hne
    simp [OAuthRedirectHandler, hp, hfalse]
  · intro c hc
    by_cases h : jsStrictEqStateVal (some tok) (getOwnProp stateObj "state") = true
    · refine ⟨(jsStrictEqStateVal_some_iff tok _).mp h, ?_⟩
      simp [OAuthRedirectHandler, hp, h] at hc
      exact hc.symm
    · simp [OAuthRedirectHandler, hp, eq_false_of_ne_true h] at hc

theorem redirect_handler_state_match_witness :
    (getOwnProp mismatchedStateObj "state" ≠ some (.str "issued-token") →
      OAuthRedirectHandler parseFix (some "issued-token") redirectUrlFix
        = .ok (.rejectedO (.error ("Mismatched state on redirect, something has gone wrong. The search string was \"" ++ redirectUrlFix.search ++ "\"."))))
    ∧ (∀ c, OAuthRedirectHandler parseFix (some "issued-token") redirectUrlFix = .ok (.resolved c) →
        getOwnProp mismatchedStateObj "state" = some (.str "issued-token") ∧ c = redirectUrlFix.get "code") :=
  redirect_handler_state_match parseFix "issued-token" redirectUrlFix mismatchedStateObj rfl

theorem settleInv_init : SettleInv initAttempt := by
  constructor <;> intro h <;> simp [initAttempt] at h ⊢

theorem trySettle_stable (s : AttemptState) (o o' : RedirectOutcome)
    (h : s.settled = some o) : (trySettle s o').settled = some o := by
  simp [trySettle, h]

theorem popupStep_stable (p : Option String → Except JsError JsValue) (st : String)
    (t : Int) (s : AttemptState) (e : PopupEvent) (o : RedirectOutcome)
    (h : s.settled = some o) : (popupStep p st t s e).settled = some o := by
  cases e with
  | timeoutFire => exact trySettle_stable s o _ h
  | message src marker url =>
      simp only [popupStep]
      by_cases hg : (s.listenerActive && marker && src) = true
      · rw [if_pos hg]
        cases OAuthRedirectHandler p (some st) url with
        | error _ => exact h
        | ok o2 => exact trySettle_stable s o o2 h
      · rw [if_neg hg]
        exact h

theorem foldl_popupStep_stable (p : Option String → Except JsError JsValue) (st : String)
    (t : Int) (evs : List PopupEvent) (s : AttemptState) (o : RedirectOutcome)
    (h : s.settled = some o) :
    (evs.foldl (popupStep p st t) s).settled = some o := by
  induction evs generalizing s with
  | nil => exact h
  | cons e rest ih => exact ih _ (popupStep_stable p st t s e o h)

theorem settleInv_trySettle (s : AttemptState) (o : RedirectOutcome)
    (h : SettleInv s) : SettleInv (trySettle s o) := by
  rcases hs : s.settled with _ | o'
  · obtain ⟨hc, _, _⟩ := h.1 hs
    simp [trySettle, hs, SettleInv, hc]
  · simpa [trySettle, hs] using h

theorem settleInv_popupStep (p : Option String → Except JsError JsValue) (st : String)
    (t : Int) (s : AttemptState) (e : PopupEvent)
    (h : SettleInv s) : SettleInv (popupStep p st t s e) := by
  cases e with
  | timeoutFire => exact settleInv_trySettle s _ h
  | message src marker url =>
      simp only [popupStep]
      by_cases hg : (s.listenerActive && marker && src) = true
      · rw [if_pos hg]
        cases OAuthRedirectHandler p (some st) url with
        | error _ => exact h
        | ok o2 => exact settleInv_trySettle s o2 h
      · rw [if_neg hg]
        exact h

theorem settleInv_foldl (p : Option String → Except JsError JsValue) (st : String)
    (t : Int) (evs : List PopupEvent) (s : AttemptState)
    (h : SettleInv s) : SettleInv (evs.foldl (popupStep p st t) s) := by
  induction evs generalizing s with
  | nil => exact h
  | cons e rest ih => exact ih _ (settleInv_popupStep p st t s e h)

theorem popupStep_timeout_isSome (p : Option String → Except JsError JsValue) (st : String)
    (t : Int) (s : AttemptState) :
    (popupStep p st t s PopupEvent.timeoutFire).settled.isSome := by
  rcases hs : s.settled with _ | o
  · simp [popupStep, trySettle, hs]
  · simp [popupStep, trySettle, hs]

theorem foldl_popupStep_isSome (p : Option String → Except JsError JsValue) (st : String)
    (t : Int) (evs : List PopupEvent) (s : AttemptState)
    (h : s.settled.isSome) :
    (evs.foldl (popupStep p st t) s).settled.isSome := by
  obtain ⟨o, ho⟩ := Option.isSome_iff_exists.mp h
  rw [foldl_popupStep_stable p st t evs s o ho]
  rfl

theorem mem_timeout_settles (p : Option String → Except JsError JsValue) (st : String)
    (t : Int) (evs : List PopupEvent) (s : AttemptState)
    (h : PopupEvent.timeoutFire ∈ evs) :
    (evs.foldl (popupStep p st t) s).settled.isSome := by
  induction evs generalizing s with
  | nil => cases h
  | cons e rest ih =>
      rcases List.mem_cons.mp h with he | hr
      · subst he
        exact foldl_popupStep_isSome p st t rest _ (popupStep_timeout_isSome p st t s)
      · exact ih _ hr

/-- C4: over any sequence of message/timeout events delivered to one popup
authorization attempt, the attempt's promise settles at most once (a
settlement is never overwritten by a later terminal event), the cleanup —
closing the popup and removing the message listener — runs exactly once when
the attempt settles and never otherwise, and a delivered timeout guarantees
settlement. -/
theorem popup_attempt_settles_once (parse : Option String → Except JsError JsValue)
    (st : String) (timeout : Int) (events : List PopupEvent) :
    (runPopup parse st timeout events).cleanupRuns ≤ 1
    ∧ ((runPopup parse st timeout events).cleanupRuns = 1
        ↔ (runPopup parse st timeout events).settled.isSome)
    ∧ ((runPopup parse st timeout events).settled.isSome →
        (runPopup parse st timeout events).listenerActive = false
        ∧ (runPopup parse st timeout events).popupOpen = false)
    ∧ (∀ more o, (runPopup parse st timeout events).settled = some o →
        (runPopup parse st timeout (events ++ more)).settled = some o)
    ∧ (PopupEvent.timeoutFire ∈ events → (runPopup parse st timeout events).settled.isSome) := by
  have hinv : SettleInv (runPopup parse st timeout events) :=
    settleInv_foldl parse st timeout events initAttempt settleInv_init
  have hfin : ∀ more o, (runPopup parse st timeout events).settled = some o →
      (runPopup parse st timeout (events ++ more)).settled = some o := by
    intro more o ho
    rw [runPopup, List.foldl_append]
    exact foldl_popupStep_stable parse st timeout more _ o ho
  refine ⟨?_, ?_, ?_, hfin, mem_timeout_settles parse st timeout events initAttempt⟩
  · rcases hs : (runPopup parse st timeout events).settled with _ | o
    · rw [(hinv.1 hs).1]
      omega
    · rw [(hinv.2 (by simp [hs])).1]
  · constructor
    · intro h1
      rcases hs : (runPopup parse st timeout events).settled with _ | o
      · exact absurd ((hinv.1 hs).1.symm.trans h1) (by decide)
      · simp
    · intro hs
      exact (hinv.2 hs).1
  · intro hs
    exact ⟨(hinv.2 hs).2.1, (hinv.2 hs).2.2⟩

theorem popup_attempt_settles_once_witness :
    (runPopup parseFix "issued-token" 120 [PopupEvent.timeoutFire]).cleanupRuns ≤ 1
    ∧ ((runPopup parseFix "issued-token" 120 [PopupEvent.timeoutFire]).cleanupRuns = 1
        ↔ (runPopup parseFix "issued-token" 120 [PopupEvent.timeoutFire]).settled.isSome)
    ∧ ((runPopup parseFix "issued-token" 120 [PopupEvent.timeoutFire]).settled.isSome →
        (runPopup parseFix "issued-token" 120 [PopupEvent.timeoutFire]).listenerActive = false
        ∧ (runPopup parseFix "issued-token" 120 [PopupEvent.timeoutFire]).popupOpen = false)
    ∧ (∀ more o, (runPopup parseFix "issued-token" 120 [PopupEvent.timeoutFire]).settled = some o →
        (runPopup parseFix "issued-token" 120 ([PopupEvent.timeoutFire] ++ more)).settled = some o)
    ∧ (PopupEvent.timeoutFire ∈ [PopupEvent.timeoutFire] →
        (runPopup parseFix "issued-token" 120 [PopupEvent.timeoutFire]).settled.isSome) :=
  popup_attempt_settles_once parseFix "issued-token" 120 [PopupEvent.timeoutFire]

/-- The refresh step issues at most its own refresh call. -/
theorem refresh_calls_cases (env : Env) (s : DC) :
    (OAuthRefreshToken env s).calls = [] ∨ (OAuthRefreshToken env s).calls = [NetCall.refreshCall] := by
  by_cases h : jsTruthy s.auth.refreshToken = true
  · rcases he : env.refreshEp with reason | u
    · by_cases hig : isInvalidGrant reason = true
      · right
        simp [OAuthRefreshToken, h, he, hig]
      · right
        simp [OAuthRefreshToken, h, he, eq_false_of_ne_true hig]
    · right
      simp [OAuthRefreshToken, h, he]
  · left
    simp [OAuthRefreshToken, eq_false_of_ne_true h]

/-- C9 counterexample: the liveness check is not exception-free — when a held
refresh token's renewal fails with a non-invalid-grant transport error,
`#OAuthCheckToken` propagates the wrapped rejection instead of returning
false, refuting the claim's headline that the check never throws. -/
theorem liveness_check_can_throw :
    (OAuthCheckToken { sampleEnv with refreshEp := .error transportErr } heldDC).result
      = .thrown (.errorWithCause "Error refreshing token!" transportErr) := rfl

/-- C9 (amended): `#OAuthCheckToken` never propagates a failure of the
identity/echo probe itself: when the refresh step resolves true, a probe
rejection or an echoed value differing from the probe query both yield false;
and when the refresh step resolves false, the check resolves false without
issuing the probe network call. (Failures thrown by the refresh step itself
do propagate, as the counterexample shows.) -/
theorem liveness_check_probe_failures_swallowed (env : Env) (s : DC) :
    ((OAuthRefreshToken env s).result = .ok true →
       ∀ e, env.checkUser = .error e → (OAuthCheckToken env s).result = .ok false)
    ∧ ((OAuthRefreshToken env s).result = .ok true →
       ∀ r, env.checkUser = .ok r → (r == env.probeUuid) = false →
         (OAuthCheckToken env s).result = .ok false)
    ∧ ((OAuthRefreshToken env s).result = .ok false →
       (OAuthCheckToken env s).result = .ok false
       ∧ NetCall.checkUserCall ∉ (OAuthCheckToken env s).calls) := by
  rcases hR : OAuthRefreshToken env s with ⟨s1, t1, r1⟩
  refine ⟨?_, ?_, ?_⟩
  · intro htrue e he
    have hr1 : r1 = .ok true := by simpa [hR] using htrue
    subst hr1
    simp [OAuthCheckToken, hR, he]
  · intro htrue r hr hne
    have hr1 : r1 = .ok true := by simpa [hR] using htrue
    subst hr1
    simp [OAuthCheckToken, hR, hr, hne]
  · intro hfalse
    have hr1 : r1 = .ok false := by simpa [hR] using hfalse
    subst hr1
    have hcalls : t1 = [] ∨ t1 = [NetCall.refreshCall] := by
      have := refresh_calls_cases env s
      rwa [hR] at this
    constructor
    · simp [OAuthCheckToken, hR]
    · simp only [OAuthCheckToken, hR]
      rcases hcalls with hc | hc <;> simp [hc]

theorem liveness_check_probe_failures_swallowed_witness :
    (OAuthCheckToken { sampleEnv with checkUser := .error transportErr } sampleDC).result = .ok false
    ∧ (OAuthCheckToken { sampleEnv with checkUser := .ok "nope" } sampleDC).result = .ok false
    ∧ ((OAuthCheckToken { sampleEnv with refreshEp := .error invalidGrantErr } heldDC).result = .ok false
       ∧ NetCall.checkUserCall
           ∉ (OAuthCheckToken { sampleEnv with refreshEp := .error invalidGrantErr } heldDC).calls) :=
  ⟨(liveness_check_probe_failures_swallowed _ sampleDC).1 rfl transportErr rfl,
   (liveness_check_probe_failures_swallowed _ sampleDC).2.1 rfl "nope" rfl rfl,
   (liveness_check_probe_failures_swallowed _ heldDC).2.2 rfl⟩

/-- A refresh step that resolves true leaves the refresh token and the
persisted storage untouched (only the access token/expiry may be renewed). -/
theorem refresh_ok_true_invariants (env : Env) (s : DC)
    (h : (OAuthRefreshToken env s).result = .ok true) :
    (OAuthRefreshToken env s).state.auth.refreshToken = s.auth.refreshToken
    ∧ (OAuthRefreshToken env s).state.persisted = s.persisted
    ∧ (OAuthRefreshToken env s).state.saveCalls = s.saveCalls := by
  by_cases ht : jsTruthy s.auth.refreshToken = true
  · rcases he : env.refreshEp with reason | u
    · by_cases hig : isInvalidGrant reason = true
      · exfalso
        simp [OAuthRefreshToken, ht, he, hig] at h
      · exfalso
        simp [OAuthRefreshToken, ht, he, eq_false_of_ne_true hig] at h
    · rcases hr : env.refreshRenew with _ | ⟨a, b⟩ <;>
        simp [OAuthRefreshToken, ht, he, applyRenew, hr]
  · simp [OAuthRefreshToken, eq_false_of_ne_true ht]

/-- The liveness check leaves the state where the refresh step left it. -/
theorem check_state_eq (env : Env) (s : DC) :
    (OAuthCheckToken env s).state = (OAuthRefreshToken env s).state := by
  rcases hR : OAuthRefreshToken env s with ⟨s1, t1, r1⟩
  rcases r1 with a | e | _
  · cases a
    · simp [OAuthCheckToken, hR]
    · rcases hc : env.checkUser with e2 | r2 <;> simp [OAuthCheckToken, hR, hc]
  · simp [OAuthCheckToken, hR]
  · simp [OAuthCheckToken, hR]

/-- The liveness check resolves true only when the refresh step resolved
true. -/
theorem check_true_refresh_true (env : Env) (s : DC)
    (h : (OAuthCheckToken env s).result = .ok true) :
    (OAuthRefreshToken env s).result = .ok true := by
  rcases hR : OAuthRefreshToken env s with ⟨s1, t1, r1⟩
  rcases r1 with a | e | _
  · cases a
    · exfalso
      simp [OAuthCheckToken, hR] at h
    · rfl
  · exfalso
    simp [OAuthCheckToken, hR] at h
  · exfalso
    simp [OAuthCheckToken, hR] at h

/-- The liveness check only ever issues the refresh call and the probe
call. -/
theorem check_calls_cases (env : Env) (s : DC) :
    ∀ c ∈ (OAuthCheckToken env s).calls, c = NetCall.refreshCall ∨ c = NetCall.checkUserCall := by
  intro c hc
  rcases hR : OAuthRefreshToken env s with ⟨s1, t1, r1⟩
  have ht1 : t1 = [] ∨ t1 = [NetCall.refreshCall] := by
    have h0 := refresh_calls_cases env s
    rwa [hR] at h0
  rcases r1 with a | e | _
  · cases a
    · simp only [OAuthCheckToken, hR] at hc
      rcases ht1 with h1 | h1 <;> rw [h1] at hc <;> simp at hc
      exact .inl hc
    · rcases hcu : env.checkUser with e2 | r2 <;>
        simp only [OAuthCheckToken, hR, hcu] at hc <;>
        rcases ht1 with h1 | h1 <;> rw [h1] at hc <;> simp at hc <;> tauto
  · simp only [OAuthCheckToken, hR] at hc
    rcases ht1 with h1 | h1 <;> rw [h1] at hc <;> simp at hc
    exact .inl hc
  · simp only [OAuthCheckToken, hR] at hc
    rcases ht1 with h1 | h1 <;> rw [h1] at hc <;> simp at hc
    exact .inl hc

/-- C5: when the liveness check resolves true, the `OAuth` orchestrator
resolves immediately: it issues none of the authorization-URL / popup /
navigation / code-exchange calls (its trace holds at most the refresh and
probe calls), and the stored credential — the in-memory refresh token, the
persisted token, and the storage call trace — is exactly as before the
call. -/
theorem oauth_noop_when_authenticated (env : Env) (pe : List PopupEvent)
    (tA : Option Int) (oA pA : Option Bool) (s : DC)
    (hcheck : (OAuthCheckToken env s).result = .ok true) :
    (OAuth env pe tA oA pA s).result = .ok ()
    ∧ (OAuth env pe tA oA pA s).state = (OAuthCheckToken env s).state
    ∧ (∀ c ∈ (OAuth env pe tA oA pA s).calls,
        c = NetCall.refreshCall ∨ c = NetCall.checkUserCall)
    ∧ (OAuth env pe tA oA pA s).state.auth.refreshToken = s.auth.refreshToken
    ∧ (OAuth env pe tA oA pA s).state.persisted = s.persisted
    ∧ (OAuth env pe tA oA pA s).state.saveCalls = s.saveCalls := by
  have hrt := check_true_refresh_true env s hcheck
  have hinv := refresh_ok_true_invariants env s hrt
  have hse := check_state_eq env s
  have hcc := check_calls_cases env s
  rcases hC : OAuthCheckToken env s with ⟨s1, t1, r1⟩
  have hr1 : r1 = .ok true := by
    have := hcheck
    rw [hC] at this
    exact this
  subst hr1
  rw [hC] at hse hcc
  refine ⟨?_, ?_, ?_, ?_, ?_, ?_⟩
  · simp [OAuth, hC]
  · simp [OAuth, hC]
  · intro c hcm
    apply hcc
    simpa [OAuth, hC] using hcm
  · simp only [OAuth, hC]
    have hse2 : s1 = (OAuthRefreshToken env s).state := by simpa using hse
    rw [hse2]
    exact hinv.1
  · simp only [OAuth, hC]
    have hse2 : s1 = (OAuthRefreshToken env s).state := by simpa using hse
    rw [hse2]
    exact hinv.2.1
  · simp only [OAuth, hC]
    have hse2 : s1 = (OAuthRefreshToken env s).state := by simpa using hse
    rw [hse2]
    exact hinv.2.2

theorem oauth_noop_when_authenticated_witness :
    (OAuth sampleEnv [] none none none sampleDC).result = .ok ()
    ∧ (OAuth sampleEnv [] none none none sampleDC).state = (OAuthCheckToken sampleEnv sampleDC).state
    ∧ (∀ c ∈ (OAuth sampleEnv [] none none none sampleDC).calls,
        c = NetCall.refreshCall ∨ c = NetCall.checkUserCall)
    ∧ (OAuth sampleEnv [] none none none sampleDC).state.auth.refreshToken = sampleDC.auth.refreshToken
    ∧ (OAuth sampleEnv [] none none none sampleDC).state.persisted = sampleDC.persisted
    ∧ (OAuth sampleEnv [] none none none sampleDC).state.saveCalls = sampleDC.saveCalls :=
  oauth_noop_when_authenticated sampleEnv [] none none none sampleDC rfl

/-- C8: when the current page URL carries `code` and `state` query parameters
and session storage holds the state token and PKCE verifier under the
app-identifier-qualified keys, `#OAuthGetCode` restores the verifier into the
authorization context and (the recovered state matching) resolves with the
URL's `code` value, issuing no external call, and touching no other state. -/
theorem navigation_replay_resolves (env : Env) (timeout : Int) (popupFlag : Bool)
    (pe : List PopupEvent) (s : DC) (c st verifier : String) (stObj : JsValue)
    (hhas : env.currentURL.has "code" = true)
    (hhass : env.currentURL.has "state" = true)
    (hcode : env.currentURL.get "code" = some c)
    (hst : sget s.sessionStore ("OAuthState-" ++ jsTemplateOpt s.appId) = some st)
    (hver : sget s.sessionStore ("CodeVerifier-" ++ jsTemplateOpt s.appId) = some verifier)
    (hp : env.jsonParse (env.currentURL.get "state") = .ok stObj)
    (hmatch : getOwnProp stObj "state" = some (.str st)) :
    (OAuthGetCode env timeout popupFlag pe s).result = .ok (.code (some c))
    ∧ (OAuthGetCode env timeout popupFlag pe s).calls = []
    ∧ (OAuthGetCode env timeout popupFlag pe s).state
        = { s with auth := { s.auth with codeVerifier := some verifier } } := by
  simp [OAuthGetCode, hhas, hhass, hst, hver, OAuthRedirectHandler, hp, hmatch,
    jsStrictEqStateVal, hcode]

theorem navigation_replay_resolves_witness :
    (OAuthGetCode navEnv 120 true [] navDC).result = .ok (.code (some "ABC"))
    ∧ (OAuthGetCode navEnv 120 true [] navDC).calls = []
    ∧ (OAuthGetCode navEnv 120 true [] navDC).state
        = { navDC with auth := { navDC.auth with codeVerifier := some "pkce-v" } } :=
  navigation_replay_resolves navEnv 120 true [] navDC "ABC" "st-tok" "pkce-v"
    (.obj [("state", .str "st-tok")]) rfl rfl rfl rfl rfl rfl rfl

theorem appendOffsets_append (l1 l2 : List UploadEvent) :
    appendOffsets (l1 ++ l2) = appendOffsets l1 ++ appendOffsets l2 := by
  induction l1 with
  | nil => rfl
  | cons e t ih => cases e <;> simp [appendOffsets, ih]

theorem appendOffsets_map (g h1 h2 : Nat → Nat) (sid : String) (l : List Nat) :
    appendOffsets (l.map (fun i => UploadEvent.append sid (g i) (h1 i) (h2 i))) = l.map g := by
  induction l with
  | nil => rfl
  | cons a t ih => simp [appendOffsets, ih]

theorem appendOffsets_cons_start (s' : String) (l : List UploadEvent) :
    appendOffsets (UploadEvent.sessionStart s' :: l) = appendOffsets l := rfl

theorem appendOffsets_single_finish (s' : String) (o : Nat) (p : String) :
    appendOffsets [UploadEvent.finish s' o p] = [] := rfl

theorem finishEvents_append (l1 l2 : List UploadEvent) :
    finishEvents (l1 ++ l2) = finishEvents l1 ++ finishEvents l2 := by
  induction l1 with
  | nil => rfl
  | cons e t ih => cases e <;> simp [finishEvents, ih]

theorem finishEvents_map (g h1 h2 : Nat → Nat) (sid : String) (l : List Nat) :
    finishEvents (l.map (fun i => UploadEvent.append sid (g i) (h1 i) (h2 i))) = [] := by
  induction l with
  | nil => rfl
  | cons a t ih => simp [finishEvents, ih]

theorem finishEvents_cons_start (s' : String) (l : List UploadEvent) :
    finishEvents (UploadEvent.sessionStart s' :: l) = finishEvents l := rfl

theorem finishEvents_single_finish (s' : String) (o : Nat) (p : String) :
    finishEvents [UploadEvent.finish s' o p] = [(s', o, p)] := rfl

/-- C6: on the chunked path, the upload issues exactly
`ceil(size / CHUNK_SIZE)` session-append calls whose cursor offsets are
`0, CHUNK_SIZE, 2*CHUNK_SIZE, …` in strictly increasing order, each carrying
the session id returned by the session-start call (which opens the trace),
followed by exactly one finish/commit call whose cursor offset is exactly the
file size. -/
theorem chunked_upload_protocol (sid : String) (f : FileModel)
    (_hS : FILE_SIZE_LIMIT ≤ f.size) :
    appendOffsets (uploadLargeFile sid f)
        = (List.range (jsCeilDiv f.size CHUNK_SIZE)).map (fun i => i * CHUNK_SIZE)
    ∧ (appendOffsets (uploadLargeFile sid f)).length = jsCeilDiv f.size CHUNK_SIZE
    ∧ List.Pairwise (fun a b => a < b) (appendOffsets (uploadLargeFile sid f))
    ∧ (∀ e ∈ uploadLargeFile sid f, sessionOf e = some sid)
    ∧ finishEvents (uploadLargeFile sid f) = [(sid, f.size, "/" ++ f.name)]
    ∧ (uploadLargeFile sid f).head? = some (.sessionStart sid) := by
  have hoff : appendOffsets (uploadLargeFile sid f)
      = (List.range (jsCeilDiv f.size CHUNK_SIZE)).map (fun i => i * CHUNK_SIZE) := by
    simp only [uploadLargeFile, List.length_map, List.length_range]
    rw [appendOffsets_append, appendOffsets_cons_start, appendOffsets_single_finish,
      List.append_nil, appendOffsets_map]
  refine ⟨hoff, ?_, ?_, ?_, ?_, ?_⟩
  · rw [hoff]
    simp
  · rw [hoff]
    refine List.Pairwise.map _ ?_ (List.pairwise_lt_range _)
    intro a b hab
    have hpos : 0 < CHUNK_SIZE := by decide
    exact Nat.mul_lt_mul_of_lt_of_le hab (Nat.le_refl CHUNK_SIZE) hpos
  · intro e he
    simp only [uploadLargeFile, List.length_map, List.length_range, List.mem_append,
      List.mem_cons, List.mem_map, List.mem_singleton, List.mem_range] at he
    rcases he with (h | ⟨i, hi, rfl⟩) | h | h
    · rw [h]
      rfl
    · rfl
    · rw [h]
      rfl
    · simp at h
  · simp only [uploadLargeFile, List.length_map, List.length_range]
    rw [finishEvents_append, finishEvents_cons_start, finishEvents_map,
      finishEvents_single_finish]
    rfl
  · rfl

theorem chunked_upload_protocol_witness :
    appendOffsets (uploadLargeFile "sess" bigFile)
        = (List.range (jsCeilDiv bigFile.size CHUNK_SIZE)).map (fun i => i * CHUNK_SIZE)
    ∧ (appendOffsets (uploadLargeFile "sess" bigFile)).length = jsCeilDiv bigFile.size CHUNK_SIZE
    ∧ List.Pairwise (fun a b => a < b) (appendOffsets (uploadLargeFile "sess" bigFile))
    ∧ (∀ e ∈ uploadLargeFile "sess" bigFile, sessionOf e = some "sess")
    ∧ finishEvents (uploadLargeFile "sess" bigFile) = [("sess", bigFile.size, "/" ++ bigFile.name)]
    ∧ (uploadLargeFile "sess" bigFile).head? = some (.sessionStart "sess") :=
  chunked_upload_protocol "sess" bigFile (by decide)

/-- C7: `uploadFile` dispatches on the fixed 150 MiB threshold — one byte
below it takes the single-request path, one byte above it takes the chunked
session path. -/
theorem upload_dispatch_boundary (sid : String) (name : String) :
    uploadFile sid ⟨name, 150 * 1024 * 1024 - 1⟩
        = [uploadSmallFile "/" ⟨name, 150 * 1024 * 1024 - 1⟩]
    ∧ uploadFile sid ⟨name, 150 * 1024 * 1024 + 1⟩
        = uploadLargeFile sid ⟨name, 150 * 1024 * 1024 + 1⟩ := by
  constructor
  · simp only [uploadFile]
    rw [if_pos (by decide)]
  · simp only [uploadFile]
    rw [if_neg (by decide)]

/-- Projection fact: persisting a token touches only the storage fields. -/
theorem saveTokenOp_auth (s : DC) (v : Option String) : (saveTokenOp s v).auth = s.auth := by
  simp only [saveTokenOp]
  split <;> rfl

/-- C10: on a successful code-to-token exchange in offline mode, the expiry
instant stored by `OAuth` is literally `Date.now() + expires_in` — the
endpoint's seconds-denominated duration added to a millisecond timestamp with
no unit conversion — and in particular (for a positive duration) it is not
the correctly converted `Date.now() + expires_in * 1000`. -/
theorem offline_expiry_uses_raw_seconds (env : Env) (pe : List PopupEvent) (T : Int)
    (s : DC) (cv : Option String) (info : TokenInfo)
    (hcheck : (OAuthCheckToken env s).result = .ok false)
    (hget : (OAuthGetCode env T true pe (OAuthCheckToken env s).state).result = .ok (.code cv))
    (hx : env.exchange cv = .ok info) :
    (OAuth env pe (some T) (some true) (some true) s).result = .ok ()
    ∧ (OAuth env pe (some T) (some true) (some true) s).state.auth.accessTokenExpiresAt
        = some (env.now + info.expires_in)
    ∧ (0 < info.expires_in →
        (OAuth env pe (some T) (some true) (some true) s).state.auth.accessTokenExpiresAt
          ≠ some (env.now + info.expires_in * 1000)) := by
  rcases hC : OAuthCheckToken env s with ⟨s1, t1, r1⟩
  have hr1 : r1 = .ok false := by
    rw [hC] at hcheck
    exact hcheck
  subst hr1
  have hget2 : (OAuthGetCode env T true pe s1).result = .ok (.code cv) := by
    rw [hC] at hget
    exact hget
  rcases hG : OAuthGetCode env T true pe s1 with ⟨s2, t2, r2⟩
  have hr2 : r2 = .ok (.code cv) := by
    rw [hG] at hget2
    exact hget2
  subst hr2
  have hred : OAuth env pe (some T) (some true) (some true) s
      = ⟨saveTokenOp
            { s2 with auth := { s2.auth with
                accessToken := some info.access_token,
                refreshToken := some info.refresh_token,
                accessTokenExpiresAt := some (env.now + info.expires_in) } }
            (some info.refresh_token),
          t1 ++ t2 ++ [.exchangeCall cv], .ok ()⟩ := by
    simp only [OAuth, hC, hG, Option.getD, jsFalsyCode, codeOf, Bool.not_true, Bool.and_false,
      if_false, hx]
    simp
  refine ⟨?_, ?_, ?_⟩
  · rw [hred]
  · rw [hred]
    simp only [saveTokenOp_auth]
  · intro hpos
    rw [hred]
    simp only [saveTokenOp_auth]
    intro h
    simp only [Option.some.injEq] at h
    omega

theorem offline_expiry_uses_raw_seconds_witness :
    (OAuth oauthEnv [PopupEvent.message true true popupUrlK] (some 120) (some true) (some true) sampleDC).result = .ok ()
    ∧ (OAuth oauthEnv [PopupEvent.message true true popupUrlK] (some 120) (some true) (some true) sampleDC).state.auth.accessTokenExpiresAt
        = some (1000 + 3600)
    ∧ (0 < (3600 : Int) →
        (OAuth oauthEnv [PopupEvent.message true true popupUrlK] (some 120) (some true) (some true) sampleDC).state.auth.accessTokenExpiresAt
          ≠ some (1000 + 3600 * 1000)) :=
  offline_expiry_uses_raw_seconds oauthEnv [PopupEvent.message true true popupUrlK] 120 sampleDC
    (some "K") ⟨"acc", "ref", 3600⟩ rfl rfl rfl

